import Mathlib

/-!
Verification development for the Kumo Cloud Home Assistant integration
(`custom_components/kumo_cloud`).  The definitions below are shallow
embeddings of the Python source: optional dictionary keys become `Option`
fields, Python `dict.get(k, default)` becomes `Option.getD`, temperatures
are rationals, and the cloud API is an oracle of scripted responses.
-/

namespace KumoCloud

/-- Modelled from the spec: `const.py` is not part of the sources; the
vendor operation-mode strings are taken from the spec's vendor mode list
`{off, cool, heat, dry, vent, auto, autoCool, autoHeat}`. -/
def OPERATION_MODE_OFF : String := "off"

def OPERATION_MODE_COOL : String := "cool"

def OPERATION_MODE_HEAT : String := "heat"

def OPERATION_MODE_DRY : String := "dry"

def OPERATION_MODE_VENT : String := "vent"

def OPERATION_MODE_AUTO : String := "auto"

def OPERATION_MODE_AUTO_COOL : String := "autoCool"

def OPERATION_MODE_AUTO_HEAT : String := "autoHeat"

/-- Home Assistant HVAC modes used by the mapper (`HVACMode`). -/
inductive HVACMode where
  | off
  | cool
  | heat
  | dry
  | fan_only
  | heat_cool
deriving DecidableEq, Repr

/-- Home Assistant HVAC actions used by the mapper (`HVACAction`). -/
inductive HVACAction where
  | off
  | cooling
  | heating
  | drying
  | fan
  | idle
deriving DecidableEq, Repr

/-- The consumer's configured display unit (`hass.config.units.temperature_unit`). -/
inductive TempUnit where
  | celsius
  | fahrenheit
deriving DecidableEq, Repr

/-- Zone adapter status record (`zone["adapter"]`); every field other than
the serial may be missing. -/
structure AdapterStatus where
  deviceSerial : String := ""
  connected : Option Bool := none
  roomTemp : Option ℚ := none
  operationMode : Option String := none
  power : Option ℕ := none
  fanSpeed : Option String := none
  airDirection : Option String := none
  spCool : Option ℚ := none
  spHeat : Option ℚ := none
  humidity : Option ℚ := none
deriving DecidableEq, Repr

/-- Zone record returned by `get_zones`. -/
structure Zone where
  id : String := ""
  name : Option String := none
  adapter : Option AdapterStatus := none
deriving DecidableEq, Repr

/-- `model` sub-record of a device detail. -/
structure DeviceModel where
  materialDescription : Option String := none
  serialProfile : Option String := none
  isSwing : Option Bool := none
  isPowerfulMode : Option Bool := none
deriving DecidableEq, Repr

/-- Device detail record returned by `get_device_details`. -/
structure DeviceDetail where
  connected : Option Bool := none
  roomTemp : Option ℚ := none
  operationMode : Option String := none
  power : Option ℕ := none
  fanSpeed : Option String := none
  airDirection : Option String := none
  spCool : Option ℚ := none
  spHeat : Option ℚ := none
  humidity : Option ℚ := none
  model : Option DeviceModel := none
  serialNumber : Option String := none
  modelNumber : Option String := none
deriving DecidableEq, Repr

/-- `minimumSetPoints` / `maximumSetPoints` sub-record of a profile. -/
structure SetPoints where
  heat : Option ℚ := none
  cool : Option ℚ := none
deriving DecidableEq, Repr

/-- Device capability profile returned by `get_device_profile`. -/
structure DeviceProfile where
  numberOfFanSpeeds : Option ℕ := none
  hasFanSpeedAuto : Option Bool := none
  hasVaneSwing : Option Bool := none
  hasVaneDir : Option Bool := none
  hasModeHeat : Option Bool := none
  hasModeDry : Option Bool := none
  hasModeVent : Option Bool := none
  minimumSetPoints : Option SetPoints := none
  maximumSetPoints : Option SetPoints := none
deriving DecidableEq, Repr

/-- Python dict lookup with default absent (`d.get(k)`), over an
association list with unique keys. -/
def dictGet {α : Type} (l : List (String × α)) (k : String) : Option α :=
  (l.find? (fun p => p.1 = k)).map (fun p => p.2)

/-- Lookup in an `HVACMode`-keyed dict. -/
def dictGetHV {α : Type} (l : List (HVACMode × α)) (k : HVACMode) : Option α :=
  (l.find? (fun p => p.1 = k)).map (fun p => p.2)

/-- Python dict insertion `d[k] = v` (overwrite in place, else append). -/
def dictInsertHV {α : Type} (l : List (HVACMode × α)) (k : HVACMode) (v : α) :
    List (HVACMode × α) :=
  if l.any (fun p => p.1 = k) then
    l.map (fun p => if p.1 = k then (k, v) else p)
  else
    l ++ [(k, v)]

/-- `KUMO_TO_HVAC_MODE`: vendor operation mode to abstract HVAC mode, in
source insertion order. -/
def KUMO_TO_HVAC_MODE : List (String × HVACMode) :=
  [(OPERATION_MODE_OFF, HVACMode.off),
   (OPERATION_MODE_COOL, HVACMode.cool),
   (OPERATION_MODE_HEAT, HVACMode.heat),
   (OPERATION_MODE_DRY, HVACMode.dry),
   (OPERATION_MODE_VENT, HVACMode.fan_only),
   (OPERATION_MODE_AUTO, HVACMode.heat_cool),
   (OPERATION_MODE_AUTO_COOL, HVACMode.heat_cool),
   (OPERATION_MODE_AUTO_HEAT, HVACMode.heat_cool)]

/-- `HVAC_TO_KUMO_MODE = {v: k for k, v in KUMO_TO_HVAC_MODE.items()}`:
a Python dict comprehension, so a later key overwrites an earlier one. -/
def HVAC_TO_KUMO_MODE : List (HVACMode × String) :=
  KUMO_TO_HVAC_MODE.foldl (fun acc p => dictInsertHV acc p.2 p.1) []

/-- Python's `round` (banker's rounding: ties go to the even integer). -/
def pythonRound (q : ℚ) : ℤ :=
  let f : ℤ := ⌊q⌋
  let r : ℚ := q - (f : ℚ)
  if r < 1/2 then f
  else if 1/2 < r then f + 1
  else if f % 2 = 0 then f else f + 1

/-- `_celsius_to_user_unit`: convert a Celsius value to the configured
display unit; in Fahrenheit mode `F = C*9/5+32` rounded to the nearest
whole degree, in Celsius mode the value passes through. -/
def celsius_to_user_unit (u : TempUnit) : Option ℚ → Option ℚ
  | none => none
  | some c =>
    if u = TempUnit.fahrenheit then some ((pythonRound (c * 9 / 5 + 32) : ℤ) : ℚ)
    else some c

/-- `_user_unit_to_celsius`: convert a display value back to Celsius with
no rounding. -/
def user_unit_to_celsius (u : TempUnit) : Option ℚ → Option ℚ
  | none => none
  | some t =>
    if u = TempUnit.fahrenheit then some ((t - 32) * 5 / 9)
    else some t

/-- The empty adapter record `{}` used by `zone_data.get("adapter", {})`. -/
def emptyAdapter : AdapterStatus := {}

/-- The effective power field shared by `hvac_mode` and `hvac_action`:
`device_data.get("power", adapter.get("power", 0))`. -/
def effective_power (z : Zone) (d : DeviceDetail) : ℕ :=
  d.power.getD ((z.adapter.getD emptyAdapter).power.getD 0)

/-- The effective operation mode shared by `hvac_mode` and `hvac_action`:
`device_data.get("operationMode", adapter.get("operationMode", OPERATION_MODE_OFF))`. -/
def effective_operation_mode (z : Zone) (d : DeviceDetail) : String :=
  d.operationMode.getD
    ((z.adapter.getD emptyAdapter).operationMode.getD OPERATION_MODE_OFF)

/-- `KumoCloudClimate.hvac_mode`: device data preferred over adapter data;
`power == 0` forces `OFF`; otherwise translate the vendor mode, default `OFF`. -/
def hvac_mode (z : Zone) (d : DeviceDetail) : HVACMode :=
  if effective_power z d = 0 then HVACMode.off
  else (dictGet KUMO_TO_HVAC_MODE (effective_operation_mode z d)).getD HVACMode.off

/-- `KumoCloudClimate.hvac_modes`: capability-gated mode list built from the
first profile entry; an absent or empty profile yields `[OFF]`. -/
def hvac_modes (profile : List DeviceProfile) : List HVACMode :=
  match profile with
  | [] => [HVACMode.off]
  | p :: _ =>
    [HVACMode.off]
      ++ (if p.hasModeHeat.getD false then [HVACMode.heat] else [])
      ++ [HVACMode.cool]
      ++ (if p.hasModeDry.getD false then [HVACMode.dry] else [])
      ++ (if p.hasModeVent.getD false then [HVACMode.fan_only] else [])
      ++ (if p.hasModeHeat.getD false then [HVACMode.heat_cool] else [])

/-- `KumoCloudClimate.current_temperature`: the adapter's `roomTemp`
converted to the display unit. -/
def current_temperature (u : TempUnit) (z : Zone) : Option ℚ :=
  celsius_to_user_unit u ((z.adapter.getD emptyAdapter).roomTemp)

/-- `KumoCloudClimate.hvac_action`: derived instantaneous action.  In the
vendor-auto branch the code compares `self.current_temperature` (already in
the display unit) with the raw Celsius setpoints, and reads those setpoints
adapter-first (`adapter.get("spHeat", device_data.get("spHeat"))`). -/
def hvac_action (u : TempUnit) (z : Zone) (d : DeviceDetail) : Option HVACAction :=
  if hvac_mode z d = HVACMode.off then some HVACAction.off
  else
    let adapter := z.adapter.getD emptyAdapter
    let power := effective_power z d
    let operation_mode := effective_operation_mode z d
    if power = 0 then some HVACAction.off
    else if operation_mode = OPERATION_MODE_HEAT ∨
            operation_mode = OPERATION_MODE_AUTO_HEAT then some HVACAction.heating
    else if operation_mode = OPERATION_MODE_COOL ∨
            operation_mode = OPERATION_MODE_AUTO_COOL then some HVACAction.cooling
    else if operation_mode = OPERATION_MODE_DRY then some HVACAction.drying
    else if operation_mode = OPERATION_MODE_VENT then some HVACAction.fan
    else if operation_mode = OPERATION_MODE_AUTO ∨
            operation_mode = OPERATION_MODE_AUTO_COOL ∨
            operation_mode = OPERATION_MODE_AUTO_HEAT then
      let current_temp := current_temperature u z
      let sp_heat := adapter.spHeat.or d.spHeat
      let sp_cool := adapter.spCool.or d.spCool
      match current_temp, sp_heat, sp_cool with
      | some ct, some sh, some sc =>
        if sc ≤ ct then some HVACAction.cooling
        else if ct ≤ sh then some HVACAction.heating
        else some HVACAction.idle
      | _, _, _ => some HVACAction.idle
    else some HVACAction.idle

/-- `KumoCloudClimate.target_temperature`: single-setpoint target, device
data preferred over adapter data; `None` in `HEAT_COOL` and `OFF`. -/
def target_temperature (u : TempUnit) (z : Zone) (d : DeviceDetail) : Option ℚ :=
  let adapter := z.adapter.getD emptyAdapter
  let m := hvac_mode z d
  if m = HVACMode.cool then celsius_to_user_unit u (d.spCool.or adapter.spCool)
  else if m = HVACMode.heat then celsius_to_user_unit u (d.spHeat.or adapter.spHeat)
  else none

/-- `KumoCloudClimate.target_temperature_low`: the heat setpoint, exposed
only in `HEAT_COOL`. -/
def target_temperature_low (u : TempUnit) (z : Zone) (d : DeviceDetail) : Option ℚ :=
  if hvac_mode z d ≠ HVACMode.heat_cool then none
  else celsius_to_user_unit u (d.spHeat.or (z.adapter.getD emptyAdapter).spHeat)

/-- `KumoCloudClimate.target_temperature_high`: the cool setpoint, exposed
only in `HEAT_COOL`. -/
def target_temperature_high (u : TempUnit) (z : Zone) (d : DeviceDetail) : Option ℚ :=
  if hvac_mode z d ≠ HVACMode.heat_cool then none
  else celsius_to_user_unit u (d.spCool.or (z.adapter.getD emptyAdapter).spCool)

/-- `KumoCloudClimate.fan_mode`: device data first, then adapter data. -/
def fan_mode (z : Zone) (d : DeviceDetail) : Option String :=
  d.fanSpeed.or ((z.adapter.getD emptyAdapter).fanSpeed)

/-- `KumoCloudClimate.swing_mode`: device data first, then adapter data. -/
def swing_mode (z : Zone) (d : DeviceDetail) : Option String :=
  d.airDirection.or ((z.adapter.getD emptyAdapter).airDirection)

/-- `KumoCloudHumiditySensor.native_value`: device data first, then adapter data. -/
def humidity_native_value (z : Zone) (d : DeviceDetail) : Option ℚ :=
  d.humidity.or ((z.adapter.getD emptyAdapter).humidity)

/-- Python `x or 16.0` on an optional float: `None`, `0` and `0.0` are
falsy, so any of them yields the fallback. -/
def py_or_default (x : Option ℚ) (dflt : ℚ) : ℚ :=
  match x with
  | none => dflt
  | some v => if v = 0 then dflt else v

/-- `KumoCloudClimate.min_temp`: `min` of the profile's minimum heat/cool
setpoints (default 16 each), converted to the display unit, then
`... or 16.0`. -/
def min_temp (u : TempUnit) (profile : List DeviceProfile) : ℚ :=
  let celsius_min : ℚ :=
    match profile with
    | [] => 16
    | p :: _ =>
      let ms := p.minimumSetPoints.getD {}
      min (ms.heat.getD 16) (ms.cool.getD 16)
  py_or_default (celsius_to_user_unit u (some celsius_min)) 16

/-- A command payload assembled by the climate entity; fields absent from
the dict are `none`. -/
structure Commands where
  operationMode : Option String := none
  spCool : Option ℚ := none
  spHeat : Option ℚ := none
deriving DecidableEq, Repr

/-- `KumoCloudClimate.async_set_hvac_mode`: the payload sent for a mode
change (`none` when the reverse lookup fails and nothing is sent).  For a
non-`OFF` mode the current effective setpoints are re-sent alongside. -/
def async_set_hvac_mode (z : Zone) (d : DeviceDetail) (m : HVACMode) : Option Commands :=
  if m = HVACMode.off then some { operationMode := some OPERATION_MODE_OFF }
  else
    match dictGetHV HVAC_TO_KUMO_MODE m with
    | none => none
    | some kumo_mode =>
      let adapter := z.adapter.getD emptyAdapter
      some { operationMode := some kumo_mode,
             spCool := d.spCool.or adapter.spCool,
             spHeat := d.spHeat.or adapter.spHeat }

/-- The error kinds the coordinator distinguishes (`KumoCloudAuthError`,
`KumoCloudConnectionError`, any other exception). -/
inductive ApiError where
  | auth
  | conn
  | other
deriving DecidableEq, Repr

/-- One round of scripted cloud responses, as seen by a single sync
attempt: the zones call and, per serial, the detail and profile calls. -/
structure ApiResponses where
  zones : Except ApiError (List Zone)
  details : String → Except ApiError DeviceDetail
  profiles : String → Except ApiError (List DeviceProfile)

/-- The coordinator's cached snapshot (`self.zones`, `self.devices`,
`self.device_profiles`), with the dicts as association lists. -/
structure CoordState where
  zones : List Zone := []
  devices : List (String × DeviceDetail) := []
  device_profiles : List (String × List DeviceProfile) := []
deriving DecidableEq, Repr

/-- Python dict insertion `d[k] = v` for string keys. -/
def assocUpd {α : Type} (l : List (String × α)) (k : String) (v : α) :
    List (String × α) :=
  if l.any (fun p => p.1 = k) then
    l.map (fun p => if p.1 = k then (k, v) else p)
  else
    l ++ [(k, v)]

/-- The per-zone fetch loop of `_async_update_data`: for every zone with a
non-null adapter, fetch that device's detail and profile; the first
failure aborts the whole cycle. -/
def fetchZoneDevices (api : ApiResponses) :
    List Zone → List (String × DeviceDetail) → List (String × List DeviceProfile) →
    Except ApiError (List (String × DeviceDetail) × List (String × List DeviceProfile))
  | [], devs, profs => Except.ok (devs, profs)
  | z :: rest, devs, profs =>
    match z.adapter with
    | none => fetchZoneDevices api rest devs profs
    | some ad => do
      let detail ← api.details ad.deviceSerial
      let profile ← api.profiles ad.deviceSerial
      fetchZoneDevices api rest (assocUpd devs ad.deviceSerial detail)
        (assocUpd profs ad.deviceSerial profile)

/-- One attempt of the full-sync body: fetch zones, then all details and
profiles; only a fully successful attempt produces a snapshot. -/
def fetchCycle (api : ApiResponses) : Except ApiError CoordState := do
  let zones ← api.zones
  let (devs, profs) ← fetchZoneDevices api zones [] []
  return { zones := zones, devices := devs, device_profiles := profs }

/-- Outcome of `_async_update_data`: the snapshot installed on success, the
prior state retained on failure.  `failed` is the `UpdateFailed` path,
`crashed` a non-auth exception escaping the auth-recovery handler, and
`fuelOut` is the model's artificial recursion bound. -/
inductive SyncResult where
  | ok (st : CoordState)
  | failed (st : CoordState)
  | crashed (e : ApiError) (st : CoordState)
  | fuelOut (st : CoordState)
deriving DecidableEq, Repr

/-- `_async_update_data`: attempt the fetch cycle; on `AuthError` refresh
the token once and recursively retry the whole method; a failing refresh
raises `UpdateFailed`; connection or other errors raise `UpdateFailed`
directly.  `sc n` is the cloud's behavior during attempt `n`, `rf n` the
outcome of the `n`-th token refresh. -/
def updateData (sc : ℕ → ApiResponses) (rf : ℕ → Except ApiError Unit) :
    ℕ → ℕ → CoordState → SyncResult
  | 0, _, st => SyncResult.fuelOut st
  | fuel + 1, n, st =>
    match fetchCycle (sc n) with
    | Except.ok snap => SyncResult.ok snap
    | Except.error ApiError.auth =>
      match rf n with
      | Except.ok _ => updateData sc rf fuel (n + 1) st
      | Except.error ApiError.auth => SyncResult.failed st
      | Except.error e => SyncResult.crashed e st
    | Except.error _ => SyncResult.failed st

/-- The adapter patch inside `async_refresh_device`: the matching zone's
adapter sub-fields are overwritten from the fresh device detail. -/
def patchAdapter (ad : AdapterStatus) (detail : DeviceDetail) : AdapterStatus :=
  { ad with
    roomTemp := detail.roomTemp
    operationMode := detail.operationMode
    power := detail.power
    fanSpeed := detail.fanSpeed
    airDirection := detail.airDirection
    spCool := detail.spCool
    spHeat := detail.spHeat
    humidity := detail.humidity }

/-- The zone loop of `async_refresh_device`: patch the first zone whose
adapter carries the refreshed serial, then stop (`break`). -/
def patchZones (zones : List Zone) (serial : String) (detail : DeviceDetail) :
    List Zone :=
  match zones with
  | [] => []
  | z :: rest =>
    match z.adapter with
    | some ad =>
      if ad.deviceSerial = serial then
        { z with adapter := some (patchAdapter ad detail) } :: rest
      else z :: patchZones rest serial detail
    | none => z :: patchZones rest serial detail

/-- The body of `async_refresh_device` before its catch-all handler: fetch
the device detail, replace `devices[serial]` and patch the zone adapter. -/
def refreshDeviceBody (res : Except ApiError DeviceDetail) (serial : String)
    (st : CoordState) : Except ApiError CoordState := do
  let detail ← res
  return { zones := patchZones st.zones serial detail,
           devices := assocUpd st.devices serial detail,
           device_profiles := st.device_profiles }

/-- `async_refresh_device`: the whole body runs under `except Exception`,
which only logs; every failure therefore returns the prior state
unchanged instead of propagating. -/
def async_refresh_device (res : Except ApiError DeviceDetail) (serial : String)
    (st : CoordState) : Except ApiError CoordState :=
  match refreshDeviceBody res serial st with
  | Except.ok st2 => Except.ok st2
  | Except.error _ => Except.ok st

/-- Effective-field resolution in the spec's words: the DeviceDetail field
if present, else the AdapterStatus field, else the documented default. -/
def spec_effective {α : Type} (dv av : Option α) (dflt : α) : α :=
  match dv with
  | some v => v
  | none =>
    match av with
    | some v => v
    | none => dflt

/-- Effective-field resolution in the spec's words for fields without a
default: the DeviceDetail field if present, else the AdapterStatus field. -/
def spec_effective_opt {α : Type} (dv av : Option α) : Option α :=
  match dv with
  | some v => some v
  | none => av

/-- The claim's reading of `hvac_action`: identical to the source except
that the setpoints feeding the vendor-auto comparison are resolved
DeviceDetail-before-Adapter, as the claim asserts. -/
def hvac_action_claim_precedence (u : TempUnit) (z : Zone) (d : DeviceDetail) :
    Option HVACAction :=
  if hvac_mode z d = HVACMode.off then some HVACAction.off
  else
    let adapter := z.adapter.getD emptyAdapter
    let power := effective_power z d
    let operation_mode := effective_operation_mode z d
    if power = 0 then some HVACAction.off
    else if operation_mode = OPERATION_MODE_HEAT ∨
            operation_mode = OPERATION_MODE_AUTO_HEAT then some HVACAction.heating
    else if operation_mode = OPERATION_MODE_COOL ∨
            operation_mode = OPERATION_MODE_AUTO_COOL then some HVACAction.cooling
    else if operation_mode = OPERATION_MODE_DRY then some HVACAction.drying
    else if operation_mode = OPERATION_MODE_VENT then some HVACAction.fan
    else if operation_mode = OPERATION_MODE_AUTO ∨
            operation_mode = OPERATION_MODE_AUTO_COOL ∨
            operation_mode = OPERATION_MODE_AUTO_HEAT then
      let current_temp := current_temperature u z
      let sp_heat := spec_effective_opt d.spHeat adapter.spHeat
      let sp_cool := spec_effective_opt d.spCool adapter.spCool
      match current_temp, sp_heat, sp_cool with
      | some ct, some sh, some sc =>
        if sc ≤ ct then some HVACAction.cooling
        else if ct ≤ sh then some HVACAction.heating
        else some HVACAction.idle
      | _, _, _ => some HVACAction.idle
    else some HVACAction.idle

/-- The amended reading of `hvac_action`: the setpoints feeding the
vendor-auto comparison are resolved Adapter-before-DeviceDetail, which is
what the source does. -/
def hvac_action_amended_precedence (u : TempUnit) (z : Zone) (d : DeviceDetail) :
    Option HVACAction :=
  if hvac_mode z d = HVACMode.off then some HVACAction.off
  else
    let adapter := z.adapter.getD emptyAdapter
    let power := effective_power z d
    let operation_mode := effective_operation_mode z d
    if power = 0 then some HVACAction.off
    else if operation_mode = OPERATION_MODE_HEAT ∨
            operation_mode = OPERATION_MODE_AUTO_HEAT then some HVACAction.heating
    else if operation_mode = OPERATION_MODE_COOL ∨
            operation_mode = OPERATION_MODE_AUTO_COOL then some HVACAction.cooling
    else if operation_mode = OPERATION_MODE_DRY then some HVACAction.drying
    else if operation_mode = OPERATION_MODE_VENT then some HVACAction.fan
    else if operation_mode = OPERATION_MODE_AUTO ∨
            operation_mode = OPERATION_MODE_AUTO_COOL ∨
            operation_mode = OPERATION_MODE_AUTO_HEAT then
      let current_temp := current_temperature u z
      let sp_heat := spec_effective_opt adapter.spHeat d.spHeat
      let sp_cool := spec_effective_opt adapter.spCool d.spCool
      match current_temp, sp_heat, sp_cool with
      | some ct, some sh, some sc =>
        if sc ≤ ct then some HVACAction.cooling
        else if ct ≤ sh then some HVACAction.heating
        else some HVACAction.idle
      | _, _, _ => some HVACAction.idle
    else some HVACAction.idle

/-- The claim's reading of `current_temperature`: the room temperature
resolved DeviceDetail-before-Adapter, as the claim asserts for every
overlapping field including temperature. -/
def current_temperature_claim_precedence (u : TempUnit) (z : Zone)
    (d : DeviceDetail) : Option ℚ :=
  celsius_to_user_unit u (spec_effective_opt d.roomTemp (z.adapter.getD emptyAdapter).roomTemp)

/-- A zone whose adapter and device detail disagree on both setpoints and
on the room temperature: adapter `roomTemp=20, spHeat=10, spCool=12`,
device `roomTemp=26, spHeat=25, spCool=30`, vendor mode `auto`, power on. -/
def exZoneC1 : Zone :=
  { id := "z1",
    adapter := some { deviceSerial := "S1", roomTemp := some 20,
                      operationMode := some "auto", power := some 1,
                      spHeat := some 10, spCool := some 12 } }

/-- Device detail carrying a room temperature and setpoints that all
differ from `exZoneC1`'s adapter values. -/
def exDetailC1 : DeviceDetail :=
  { roomTemp := some 26, spHeat := some 25, spCool := some 30 }

/-- A zone in vendor mode `auto`, power on, room 20°C, setpoints 18/24°C,
with no device detail available. -/
def exZoneC6 : Zone :=
  { id := "z6",
    adapter := some { deviceSerial := "S6", roomTemp := some 20,
                      operationMode := some "auto", power := some 1,
                      spHeat := some 18, spCool := some 24 } }

/-- A concrete adapter, zone, detail, profile and snapshot for witnesses. -/
def exAdapter : AdapterStatus :=
  { deviceSerial := "S1", connected := some true, roomTemp := some 21 }

def exZone : Zone := { id := "z1", name := some "Living", adapter := some exAdapter }

def exDetail : DeviceDetail :=
  { operationMode := some "cool", power := some 1, spCool := some 24 }

def exProfile : DeviceProfile := { numberOfFanSpeeds := some 3, hasModeHeat := some true }

def exSnap : CoordState :=
  { zones := [exZone], devices := [("S1", exDetail)],
    device_profiles := [("S1", [exProfile])] }

/-- A cloud that answers every call successfully. -/
def exOkApi : ApiResponses :=
  { zones := Except.ok [exZone],
    details := fun _ => Except.ok exDetail,
    profiles := fun _ => Except.ok [exProfile] }

/-- A cloud whose every call fails with an authentication error. -/
def exAuthApi : ApiResponses :=
  { zones := Except.error ApiError.auth,
    details := fun _ => Except.error ApiError.auth,
    profiles := fun _ => Except.error ApiError.auth }

/-- Sync attempts 0 and 1 hit an authentication error, attempt 2 succeeds. -/
def exTwoAuthScript : ℕ → ApiResponses := fun n => if n ≤ 1 then exAuthApi else exOkApi

/-- Every call succeeds in every attempt. -/
def exOkScript : ℕ → ApiResponses := fun _ => exOkApi

/-- Every token refresh succeeds. -/
def exRefreshOk : ℕ → Except ApiError Unit := fun _ => Except.ok ()

/-- Python `dict.get` precedence as a single lemma: a `getD` chain is the
spec's Detail-before-Adapter-before-default resolution. -/
theorem getD_eq_spec {α : Type} (x y : Option α) (dflt : α) :
    x.getD (y.getD dflt) = spec_effective x y dflt := by
  cases x <;> cases y <;> rfl

/-- `Option.or` is the spec's Detail-before-Adapter resolution for fields
without a default. -/
theorem or_eq_spec {α : Type} (x y : Option α) : x.or y = spec_effective_opt x y := by
  cases x <;> rfl

/-- Python's `round` lands within half a unit of its argument. -/
theorem pythonRound_dist (q : ℚ) : |(pythonRound q : ℚ) - q| ≤ 1 / 2 := by
  have h1 : ((⌊q⌋ : ℤ) : ℚ) ≤ q := Int.floor_le q
  have h2 : q < (⌊q⌋ : ℚ) + 1 := Int.lt_floor_add_one q
  unfold pythonRound
  by_cases hc1 : q - ((⌊q⌋ : ℤ) : ℚ) < 1 / 2
  · rw [if_pos hc1, abs_le]
    constructor <;> linarith
  · rw [if_neg hc1]
    by_cases hc2 : (1 : ℚ) / 2 < q - ((⌊q⌋ : ℤ) : ℚ)
    · rw [if_pos hc2]
      push_cast
      rw [abs_le]
      constructor <;> linarith
    · rw [if_neg hc2]
      have heq : q - ((⌊q⌋ : ℤ) : ℚ) = 1 / 2 :=
        le_antisymm (not_lt.1 hc2) (not_lt.1 hc1)
      by_cases hc3 : ⌊q⌋ % 2 = 0
      · rw [if_pos hc3, abs_le]
        constructor <;> linarith
      · rw [if_neg hc3]
        push_cast
        rw [abs_le]
        constructor <;> linarith

/-- Python `x or 16.0` never returns `0`: a zero value is falsy and is
replaced by the fallback. -/
theorem py_or_default_ne_zero (x : Option ℚ) : py_or_default x 16 ≠ 0 := by
  cases x with
  | none => norm_num [py_or_default]
  | some v =>
    by_cases hv : v = 0 <;> simp [py_or_default, hv]

/-- C1 counterexample: at a concrete input where the adapter and the
device detail disagree on both setpoints and on the room temperature, the
claimed DeviceDetail-before-Adapter resolution fails on two read paths:
the HEAT_COOL action derivation uses the adapter's setpoints (reporting
COOLING where the claimed resolution reports HEATING), and the current
temperature read returns the adapter's 20°C although the device detail
carries `roomTemp=26` which the claimed resolution would prefer. -/
theorem effective_precedence_cex :
    (hvac_action TempUnit.celsius exZoneC1 exDetailC1 = some HVACAction.cooling
     ∧ hvac_action_claim_precedence TempUnit.celsius exZoneC1 exDetailC1 =
         some HVACAction.heating)
    ∧ (exDetailC1.roomTemp = some 26
       ∧ current_temperature TempUnit.celsius exZoneC1 = some 20
       ∧ current_temperature_claim_precedence TempUnit.celsius exZoneC1 exDetailC1 =
           some 26) := by
  refine ⟨⟨?_, ?_⟩, ?_, ?_, ?_⟩ <;> decide

/-- C1 (amended): the overlapping-field read paths of the climate mapper
for operating mode, power, fan speed, air direction, target setpoints and
humidity resolve DeviceDetail-before-Adapter-before-default — except that
the current temperature is read from the zone adapter's roomTemp only (a
DeviceDetail roomTemp is never consulted, rendered below by a resolution
whose DeviceDetail side is always absent), and the spHeat/spCool reads
inside the HEAT_COOL action derivation resolve Adapter-before-DeviceDetail. -/
theorem effective_precedence_amended (u : TempUnit) (z : Zone) (d : DeviceDetail) :
    hvac_mode z d =
      (if spec_effective d.power (z.adapter.getD emptyAdapter).power 0 = 0 then
         HVACMode.off
       else
         (dictGet KUMO_TO_HVAC_MODE
            (spec_effective d.operationMode (z.adapter.getD emptyAdapter).operationMode
              OPERATION_MODE_OFF)).getD HVACMode.off)
    ∧ fan_mode z d = spec_effective_opt d.fanSpeed (z.adapter.getD emptyAdapter).fanSpeed
    ∧ swing_mode z d =
        spec_effective_opt d.airDirection (z.adapter.getD emptyAdapter).airDirection
    ∧ humidity_native_value z d =
        spec_effective_opt d.humidity (z.adapter.getD emptyAdapter).humidity
    ∧ current_temperature u z =
        celsius_to_user_unit u
          (spec_effective_opt none (z.adapter.getD emptyAdapter).roomTemp)
    ∧ target_temperature u z d =
        (if hvac_mode z d = HVACMode.cool then
           celsius_to_user_unit u
             (spec_effective_opt d.spCool (z.adapter.getD emptyAdapter).spCool)
         else if hvac_mode z d = HVACMode.heat then
           celsius_to_user_unit u
             (spec_effective_opt d.spHeat (z.adapter.getD emptyAdapter).spHeat)
         else none)
    ∧ target_temperature_low u z d =
        (if hvac_mode z d = HVACMode.heat_cool then
           celsius_to_user_unit u
             (spec_effective_opt d.spHeat (z.adapter.getD emptyAdapter).spHeat)
         else none)
    ∧ target_temperature_high u z d =
        (if hvac_mode z d = HVACMode.heat_cool then
           celsius_to_user_unit u
             (spec_effective_opt d.spCool (z.adapter.getD emptyAdapter).spCool)
         else none)
    ∧ hvac_action u z d = hvac_action_amended_precedence u z d := by
  refine ⟨?_, ?_, ?_, ?_, ?_, ?_, ?_, ?_, ?_⟩
  · simp only [hvac_mode, effective_power, effective_operation_mode, getD_eq_spec]
  · simp only [fan_mode, or_eq_spec]
  · simp only [swing_mode, or_eq_spec]
  · simp only [humidity_native_value, or_eq_spec]
  · rfl
  · simp only [target_temperature, or_eq_spec]
  · unfold target_temperature_low
    by_cases h : hvac_mode z d = HVACMode.heat_cool
    · simp [h, or_eq_spec]
    · simp [h]
  · unfold target_temperature_high
    by_cases h : hvac_mode z d = HVACMode.heat_cool
    · simp [h, or_eq_spec]
    · simp [h]
  · simp only [hvac_action, hvac_action_amended_precedence, or_eq_spec]

/-- C2: whenever the effective power field resolves to 0, the reported
HVAC mode is OFF and the derived action is OFF, for every adapter, device
detail and display unit, regardless of the stored operation mode. -/
theorem power_zero_forces_off (z : Zone) (d : DeviceDetail) (u : TempUnit)
    (h : effective_power z d = 0) :
    hvac_mode z d = HVACMode.off ∧ hvac_action u z d = some HVACAction.off := by
  have hm : hvac_mode z d = HVACMode.off := by
    unfold hvac_mode
    rw [h]
    simp
  refine ⟨hm, ?_⟩
  unfold hvac_action
  rw [hm]
  simp

/-- C2 witness: the all-defaults device resolves power to 0 and reads OFF. -/
theorem power_zero_forces_off_witness :
    effective_power {} {} = 0
    ∧ (hvac_mode {} {} = HVACMode.off
       ∧ hvac_action TempUnit.celsius {} {} = some HVACAction.off) :=
  ⟨by decide, power_zero_forces_off {} {} TempUnit.celsius (by decide)⟩

/-- C7 counterexample: the write-side reverse map sends HEAT_COOL to the
vendor mode "autoHeat" (the last auto variant wins the dict reversal),
not to "auto" as claimed. -/
theorem heatcool_reverse_map_cex :
    dictGetHV HVAC_TO_KUMO_MODE HVACMode.heat_cool ≠ some OPERATION_MODE_AUTO
    ∧ dictGetHV HVAC_TO_KUMO_MODE HVACMode.heat_cool = some OPERATION_MODE_AUTO_HEAT := by
  constructor <;> decide

/-- C7 (amended): every abstract mode other than HEAT_COOL maps to its
unique vendor counterpart; HEAT_COOL maps to "autoHeat", and setting HVAC
mode HEAT_COOL sends operationMode "autoHeat" in the command payload. -/
theorem reverse_mode_map_amended :
    dictGetHV HVAC_TO_KUMO_MODE HVACMode.off = some OPERATION_MODE_OFF
    ∧ dictGetHV HVAC_TO_KUMO_MODE HVACMode.cool = some OPERATION_MODE_COOL
    ∧ dictGetHV HVAC_TO_KUMO_MODE HVACMode.heat = some OPERATION_MODE_HEAT
    ∧ dictGetHV HVAC_TO_KUMO_MODE HVACMode.dry = some OPERATION_MODE_DRY
    ∧ dictGetHV HVAC_TO_KUMO_MODE HVACMode.fan_only = some OPERATION_MODE_VENT
    ∧ dictGetHV HVAC_TO_KUMO_MODE HVACMode.heat_cool = some OPERATION_MODE_AUTO_HEAT
    ∧ ∀ (z : Zone) (d : DeviceDetail), ∃ c,
        async_set_hvac_mode z d HVACMode.heat_cool = some c
        ∧ c.operationMode = some OPERATION_MODE_AUTO_HEAT := by
  refine ⟨by decide, by decide, by decide, by decide, by decide, by decide, ?_⟩
  intro z d
  exact ⟨_, rfl, rfl⟩

/-- C8 counterexample: with an absent (empty) profile the mode list is
just [OFF]; COOL is not a member, contrary to the claim that OFF and COOL
are always present. -/
theorem cool_missing_without_profile_cex :
    HVACMode.cool ∉ hvac_modes ([] : List DeviceProfile) := by decide

/-- C8 (amended): with an absent or empty profile the mode list is exactly
[OFF]; with a profile present, the list contains OFF and COOL, HEAT and
HEAT_COOL iff the profile declares heat capability, DRY iff hasModeDry,
and FAN_ONLY iff hasModeVent. -/
theorem hvac_modes_amended (p : DeviceProfile) (rest : List DeviceProfile) :
    hvac_modes [] = [HVACMode.off]
    ∧ HVACMode.off ∈ hvac_modes (p :: rest)
    ∧ HVACMode.cool ∈ hvac_modes (p :: rest)
    ∧ (HVACMode.heat ∈ hvac_modes (p :: rest) ↔ p.hasModeHeat.getD false = true)
    ∧ (HVACMode.heat_cool ∈ hvac_modes (p :: rest) ↔ p.hasModeHeat.getD false = true)
    ∧ (HVACMode.dry ∈ hvac_modes (p :: rest) ↔ p.hasModeDry.getD false = true)
    ∧ (HVACMode.fan_only ∈ hvac_modes (p :: rest) ↔ p.hasModeVent.getD false = true) := by
  cases hh : p.hasModeHeat.getD false <;> cases hd : p.hasModeDry.getD false <;>
    cases hv : p.hasModeVent.getD false <;> simp [hvac_modes, hh, hd, hv]

/-- C8 witness: a heat-capable profile yields a mode list containing HEAT. -/
theorem hvac_modes_amended_witness :
    HVACMode.heat ∈ hvac_modes [exProfile] :=
  (hvac_modes_amended exProfile []).2.2.2.1.mpr (by decide)

/-- C10: min_temp never returns 0 because the Python `or 16.0` fallback
fires on any falsy converted value; in particular a profile with minimum
setpoints heat=0 and cool=0 under a Celsius display yields 16. -/
theorem min_temp_falsy_fallback :
    (∀ (u : TempUnit) (profile : List DeviceProfile), min_temp u profile ≠ 0)
    ∧ min_temp TempUnit.celsius
        [{ minimumSetPoints := some { heat := some 0, cool := some 0 } }] = 16 := by
  constructor
  · intro u profile
    unfold min_temp
    exact py_or_default_ne_zero _
  · simp [min_temp, celsius_to_user_unit, py_or_default]

/-- C3: a full-sync cycle that fails (with UpdateFailed or an escaping
exception) leaves the cached snapshot exactly as it was, and any snapshot
it installs is the result of one attempt in which every fetch succeeded. -/
theorem full_sync_snapshot_atomicity (sc : ℕ → ApiResponses)
    (rf : ℕ → Except ApiError Unit) (fuel n : ℕ) (st : CoordState) :
    (∀ st2, updateData sc rf fuel n st = SyncResult.failed st2 → st2 = st)
    ∧ (∀ e st2, updateData sc rf fuel n st = SyncResult.crashed e st2 → st2 = st)
    ∧ (∀ st2, updateData sc rf fuel n st = SyncResult.ok st2 →
        ∃ k, fetchCycle (sc k) = Except.ok st2) := by
  induction fuel generalizing n with
  | zero =>
    refine ⟨?_, ?_, ?_⟩ <;> intro _ <;> simp [updateData]
  | succ fuel ih =>
    rcases hfc : fetchCycle (sc n) with e | snap
    · rcases e with _ | _ | _
      · rcases hr : rf n with e2 | u
        · rcases e2 with _ | _ | _
          · refine ⟨?_, ?_, ?_⟩
            · intro st2 h
              simp only [updateData, hfc, hr] at h
              injection h with h2
              exact h2.symm
            · intro e st2 h
              simp only [updateData, hfc, hr] at h
              exact absurd h (by simp)
            · intro st2 h
              simp only [updateData, hfc, hr] at h
              exact absurd h (by simp)
          · refine ⟨?_, ?_, ?_⟩
            · intro st2 h
              simp only [updateData, hfc, hr] at h
              exact absurd h (by simp)
            · intro e st2 h
              simp only [updateData, hfc, hr] at h
              injection h with h1 h2
              exact h2.symm
            · intro st2 h
              simp only [updateData, hfc, hr] at h
              exact absurd h (by simp)
          · refine ⟨?_, ?_, ?_⟩
            · intro st2 h
              simp only [updateData, hfc, hr] at h
              exact absurd h (by simp)
            · intro e st2 h
              simp only [updateData, hfc, hr] at h
              injection h with h1 h2
              exact h2.symm
            · intro st2 h
              simp only [updateData, hfc, hr] at h
              exact absurd h (by simp)
        · refine ⟨?_, ?_, ?_⟩
          · intro st2 h
            simp only [updateData, hfc, hr] at h
            exact (ih (n + 1)).1 st2 h
          · intro e st2 h
            simp only [updateData, hfc, hr] at h
            exact (ih (n + 1)).2.1 e st2 h
          · intro st2 h
            simp only [updateData, hfc, hr] at h
            exact (ih (n + 1)).2.2 st2 h
      · refine ⟨?_, ?_, ?_⟩
        · intro st2 h
          simp only [updateData, hfc] at h
          injection h with h2
          exact h2.symm
        · intro e st2 h
          simp only [updateData, hfc] at h
          exact absurd h (by simp)
        · intro st2 h
          simp only [updateData, hfc] at h
          exact absurd h (by simp)
      · refine ⟨?_, ?_, ?_⟩
        · intro st2 h
          simp only [updateData, hfc] at h
          injection h with h2
          exact h2.symm
        · intro e st2 h
          simp only [updateData, hfc] at h
          exact absurd h (by simp)
        · intro st2 h
          simp only [updateData, hfc] at h
          exact absurd h (by simp)
    · refine ⟨?_, ?_, ?_⟩
      · intro st2 h
        simp only [updateData, hfc] at h
        exact absurd h (by simp)
      · intro e st2 h
        simp only [updateData, hfc] at h
        exact absurd h (by simp)
      · intro st2 h
        simp only [updateData, hfc] at h
        injection h with h2
        exact ⟨n, by rw [hfc, h2]⟩

/-- C3 witness: a fully successful cycle installs a snapshot that is the
result of a fully successful fetch pass. -/
theorem full_sync_snapshot_atomicity_witness :
    ∃ k, fetchCycle (exOkScript k) = Except.ok exSnap :=
  (full_sync_snapshot_atomicity exOkScript exRefreshOk 1 0 {}).2.2 exSnap (by rfl)

/-- C4 counterexample: with authentication errors on sync attempts 0 and 1
and token refreshes that succeed, the cycle still succeeds on attempt 2
(and two attempts of fuel are not enough), so a second AuthError does not
fail the cycle and an execution can perform more than one extra attempt. -/
theorem auth_retry_unbounded_cex :
    updateData exTwoAuthScript exRefreshOk 3 0 {} = SyncResult.ok exSnap
    ∧ updateData exTwoAuthScript exRefreshOk 2 0 {} = SyncResult.fuelOut {} := by
  constructor <;> rfl

/-- C4 (amended): an AuthError during the sync triggers a token-refresh
attempt and, when the refresh succeeds, a retry of the entire sync — even
if AuthErrors have already occurred; the cycle hard-fails only when the
token refresh itself fails with an AuthError. -/
theorem auth_retry_amended (sc : ℕ → ApiResponses) (rf : ℕ → Except ApiError Unit)
    (fuel n : ℕ) (st : CoordState) :
    (fetchCycle (sc n) = Except.error ApiError.auth → rf n = Except.ok () →
      updateData sc rf (fuel + 1) n st = updateData sc rf fuel (n + 1) st)
    ∧ (fetchCycle (sc n) = Except.error ApiError.auth →
        rf n = Except.error ApiError.auth →
        updateData sc rf (fuel + 1) n st = SyncResult.failed st) := by
  constructor
  · intro hf hr
    simp [updateData, hf, hr]
  · intro hf hr
    simp [updateData, hf, hr]

/-- C4 witness: after the first AuthError and a successful refresh the
coordinator re-runs the whole sync as attempt 1. -/
theorem auth_retry_amended_witness :
    updateData exTwoAuthScript exRefreshOk 3 0 {} =
      updateData exTwoAuthScript exRefreshOk 2 1 {} :=
  (auth_retry_amended exTwoAuthScript exRefreshOk 2 0 {}).1 (by rfl) (by rfl)

/-- C5: the targeted refresh never propagates an exception (its whole body
runs under a catch-all), and when the device-detail fetch fails the cached
zones, devices and device_profiles are all left exactly as they were. -/
theorem targeted_refresh_no_raise (res : Except ApiError DeviceDetail)
    (serial : String) (st : CoordState) :
    (∃ st2, async_refresh_device res serial st = Except.ok st2)
    ∧ (∀ e, res = Except.error e → async_refresh_device res serial st = Except.ok st) := by
  constructor
  · cases res <;> exact ⟨_, rfl⟩
  · intro e he
    subst he
    rfl

/-- C5 witness: a connection error during the targeted refresh is absorbed
and the prior snapshot survives unchanged. -/
theorem targeted_refresh_no_raise_witness :
    async_refresh_device (Except.error ApiError.conn) "S1" exSnap = Except.ok exSnap :=
  (targeted_refresh_no_raise (Except.error ApiError.conn) "S1" exSnap).2
    ApiError.conn rfl

/-- C9: for every Celsius temperature in the supported setpoint range,
converting to the rounded Fahrenheit display value and back yields the
original Celsius value within one display unit (1°F = 5/9°C). -/
theorem fahrenheit_round_trip (c : ℚ) (_h16 : 16 ≤ c) (_h30 : c ≤ 30) :
    ∃ c2, user_unit_to_celsius TempUnit.fahrenheit
        (celsius_to_user_unit TempUnit.fahrenheit (some c)) = some c2
      ∧ |c2 - c| ≤ 5 / 9 := by
  refine ⟨((pythonRound (c * 9 / 5 + 32) : ℚ) - 32) * 5 / 9, rfl, ?_⟩
  have hb := pythonRound_dist (c * 9 / 5 + 32)
  have key : ((pythonRound (c * 9 / 5 + 32) : ℚ) - 32) * 5 / 9 - c
      = ((pythonRound (c * 9 / 5 + 32) : ℚ) - (c * 9 / 5 + 32)) * (5 / 9) := by
    ring
  rw [key, abs_mul, abs_of_pos (by norm_num : (0 : ℚ) < 5 / 9)]
  calc |(pythonRound (c * 9 / 5 + 32) : ℚ) - (c * 9 / 5 + 32)| * (5 / 9)
      ≤ (1 / 2) * (5 / 9) := by
        exact mul_le_mul_of_nonneg_right hb (by norm_num)
    _ ≤ 5 / 9 := by norm_num

/-- C9 witness: 20°C converts to 68°F and back to exactly 20°C. -/
theorem fahrenheit_round_trip_witness :
    ∃ c2, user_unit_to_celsius TempUnit.fahrenheit
        (celsius_to_user_unit TempUnit.fahrenheit (some 20)) = some c2
      ∧ |c2 - 20| ≤ 5 / 9 :=
  fahrenheit_round_trip 20 (by norm_num) (by norm_num)

/-- C10 witness: the zero-minimum profile concretely evaluates to 16. -/
theorem min_temp_falsy_fallback_witness :
    min_temp TempUnit.celsius
        [{ minimumSetPoints := some { heat := some 0, cool := some 0 } }] = 16 :=
  min_temp_falsy_fallback.2

/-- C6: evaluation of the code at the failing input.  A device in vendor
mode `auto` with power on, room 20°C and setpoints 18/24°C is strictly
inside its setpoint band, yet under a Fahrenheit display the derived
action is COOLING — the code compares the rounded Fahrenheit current
temperature (68) against the raw Celsius cool setpoint (24) — while the
same state under a Celsius display yields IDLE. -/
theorem auto_action_unit_mismatch_eval :
    hvac_action TempUnit.fahrenheit exZoneC6 {} = some HVACAction.cooling
    ∧ hvac_action TempUnit.celsius exZoneC6 {} = some HVACAction.idle := by
  have pr68 : pythonRound (20 * 9 / 5 + 32) = 68 := by
    unfold pythonRound
    norm_num
  have hct : current_temperature TempUnit.fahrenheit exZoneC6 = some 68 := by
    simp [current_temperature, exZoneC6, celsius_to_user_unit, emptyAdapter, pr68]
  constructor
  · have hm : hvac_mode exZoneC6 ({} : DeviceDetail) = HVACMode.heat_cool := by decide
    have hpow : effective_power exZoneC6 ({} : DeviceDetail) = 1 := by decide
    have hop : effective_operation_mode exZoneC6 ({} : DeviceDetail) = "auto" := by decide
    have hsph : (exZoneC6.adapter.getD emptyAdapter).spHeat = some 18 := by decide
    have hspc : (exZoneC6.adapter.getD emptyAdapter).spCool = some 24 := by decide
    simp only [hvac_action, hm, hpow, hop, hsph, hspc, hct,
      OPERATION_MODE_HEAT, OPERATION_MODE_AUTO_HEAT, OPERATION_MODE_COOL,
      OPERATION_MODE_AUTO_COOL, OPERATION_MODE_DRY, OPERATION_MODE_VENT,
      OPERATION_MODE_AUTO]
    norm_num
    decide
  · decide

end KumoCloud
